import Mathlib

/-!
Verification of the transactional sale-posting engine, the identity-token
codec and the role-based authorization layer documented in
`references/transactions.md` of the repository
`express-typescript-api-best-practices`.

The TypeScript in that file is shallowly embedded here:

* JavaScript numbers are idealized as exact rationals (`ℚ`); `NaN` is kept
  explicit, so a runtime numeric value is `JNum := Option ℚ` with `none`
  playing the role of `NaN`.  `Number.prototype.toFixed(2)` followed by
  `parseFloat` is `round2` (round to the nearest multiple of 1/100, ties
  away from zero toward +∞, exactly ECMAScript's "pick the larger n" rule).
* Loosely-typed request payload fields (`any`) are embedded as `JSVal`,
  covering the JavaScript values the engine inspects: `undefined`, `null`,
  finite numbers, `NaN` and strings, together with JavaScript truthiness
  and `Number(·)` coercion.  Exponent/hex string forms are not modelled
  (they coerce to `NaN` here); no claim depends on them.
* The relational store is a record of lists; a Sequelize transaction is
  embedded by threading a tentative store: writes issued inside the
  transaction are produced alongside the result, `commit` installs them,
  `rollback` discards them and returns the caller's original store.
-/

/-- A loosely-typed JavaScript value as it appears in the `any[]` payload of
`crearDetalleVenta` and in model attributes. `none`-like values `undefined`
and `null` are distinguished, as the source distinguishes them from `0`. -/
inductive JSVal where
  | undef : JSVal
  | jsNull : JSVal
  | num : ℚ → JSVal
  | nan : JSVal
  | str : String → JSVal
deriving DecidableEq

/-- A JavaScript runtime number: `none` is `NaN`, `some q` a finite value. -/
abbrev JNum := Option ℚ

/-- JavaScript truthiness: `undefined`, `null`, `0`, `NaN` and `""` are
falsy, every other modelled value is truthy. -/
def truthy : JSVal → Bool
  | .undef => false
  | .jsNull => false
  | .num q => if q = 0 then false else true
  | .nan => false
  | .str s => if s = "" then false else true

/-- `v === undefined || v === null`, the guard used by the engine before
auto-filling `precio_unitario` and `sub_total`. -/
def isNullOrUndef : JSVal → Bool
  | .undef => true
  | .jsNull => true
  | _ => false

/-- Value of a nonempty all-digit character run. -/
def digitsVal (cs : List Char) : ℕ :=
  cs.foldl (fun n c => 10 * n + (c.toNat - 48)) 0

/-- `Number(string)` on the decimal forms the engine can meet: optional
sign, digits, optional fraction part. Anything else coerces to `NaN`
(`none`); the empty string coerces to `0` as in JavaScript. -/
def strToNum (s : String) : JNum :=
  match s.toList with
  | [] => some 0
  | cs =>
    let signed : ℚ × List Char :=
      match cs with
      | '-' :: rest => (-1, rest)
      | '+' :: rest => (1, rest)
      | _ => (1, cs)
    let sign := signed.1
    let body := signed.2
    match body.span (fun c => c ≠ '.') with
    | (ip, []) =>
      if ip ≠ [] ∧ ip.all Char.isDigit then some (sign * digitsVal ip) else none
    | (ip, _ :: fp) =>
      if (ip ≠ [] ∨ fp ≠ []) ∧ ip.all Char.isDigit ∧ fp.all Char.isDigit then
        some (sign * ((digitsVal ip : ℚ) + (digitsVal fp : ℚ) / (10 ^ fp.length)))
      else none

/-- JavaScript `Number(v)` coercion on modelled values. -/
def toNumber : JSVal → JNum
  | .undef => none
  | .jsNull => some 0
  | .num q => some q
  | .nan => none
  | .str s => strToNum s

/-- `parseFloat(x.toFixed(2))` on a finite value: round to 2 decimals,
ties toward +∞ (ECMAScript toFixed picks the larger candidate). -/
def round2 (q : ℚ) : ℚ := (round (q * 100) : ℤ) / 100

/-- `toFixed(2)` lifted to runtime numbers; `NaN.toFixed(2)` parses back
to `NaN`. -/
def jround2 : JNum → JNum
  | some q => some (round2 q)
  | none => none

/-- Addition on runtime numbers; `NaN` is absorbing. -/
def jadd : JNum → JNum → JNum
  | some a, some b => some (a + b)
  | _, _ => none

/-- Multiplication on runtime numbers; `NaN` is absorbing. -/
def jmul : JNum → JNum → JNum
  | some a, some b => some (a * b)
  | _, _ => none

/-- Strict `<` on runtime numbers: any comparison with `NaN` is `false`. -/
def jlt : JNum → JNum → Bool
  | some a, some b => if a < b then true else false
  | _, _ => false

/-- `x <= 0` as JavaScript evaluates it: `false` when `x` is `NaN`. -/
def jleZero : JNum → Bool
  | some a => if a ≤ 0 then true else false
  | none => false

/-! ## Data model (tables touched by the engine) -/

/-- A `Producto` row: primary key and the list price the engine defaults
`precio_unitario` from. Other columns are never read by the engine. -/
structure Producto where
  id : ℕ
  precio_minorista : ℚ
deriving DecidableEq

/-- A `Venta` (parent order) row: primary key and running total. The total
is stored as a runtime number so that the engine's own writes (which may
be `NaN` on degenerate input) can be represented. -/
structure Venta where
  id : ℕ
  total : JNum
deriving DecidableEq

/-- One element of the `detalleVentaData : any[]` input batch, with the
fields `crearDetalleVenta` reads. Absent properties are `JSVal.undef`. -/
structure LineInput where
  producto_id : JSVal
  cantidad : JSVal
  almacen_id : JSVal
  venta_id : JSVal
  precio_unitario : JSVal
  sub_total : JSVal
deriving DecidableEq

/-- An `InventoryMovement` row as created by `crearMovimiento`: the raw
payload fields plus the resolved unit price and a reason naming the order. -/
structure Movimiento where
  id : ℕ
  tipo : String
  producto_id : JSVal
  almacen_id : JSVal
  cantidad : JSVal
  precio_unitario : JNum
  venta_ref : JSVal
deriving DecidableEq

/-- A `DetalleVenta` (order line) row: the mutated input item as passed to
`bulkCreate` — original payload fields, overwritten numeric
`precio_unitario` and `sub_total`, and the captured movement id. -/
structure DetalleVenta where
  producto_id : JSVal
  cantidad : JSVal
  almacen_id : JSVal
  venta_id : JSVal
  precio_unitario : JNum
  sub_total : JNum
  movimiento_id : ℕ
deriving DecidableEq

/-- The slice of the relational store the engine touches. `nextMovId` is
the movement table's id sequence. -/
structure Store where
  productos : List Producto
  ventas : List Venta
  movimientos : List Movimiento
  detalles : List DetalleVenta
  nextMovId : ℕ
deriving DecidableEq

/-- Errors thrown by `crearDetalleVenta`, tagged with the data interpolated
into the source's `Error` messages. -/
inductive VentaErr where
  | emptyBatch : VentaErr
  | productoObligatorio : VentaErr
  | cantidadInvalida : VentaErr
  | productoNoEncontrado : JSVal → VentaErr
  | ventaObligatoria : VentaErr
  | ventaNoEncontrada : JSVal → VentaErr
deriving DecidableEq

/-- `[...new Set(xs)]`: first-occurrence deduplication under JavaScript
SameValueZero equality (which `JSVal` equality models, `NaN = NaN`). -/
def dedup (l : List JSVal) : List JSVal :=
  l.foldl (fun acc v => if acc.any (fun w => w = v) then acc else acc ++ [v]) []

/-- The one batched read: `Producto.findAll({ where: { id: productoIds } })`
for the distinct `producto_id` values of the batch. -/
def productosFetched (s : Store) (d : List LineInput) : List Producto :=
  s.productos.filter
    (fun p => (dedup (d.map (·.producto_id))).any (fun v => v = JSVal.num p.id))

/-- `productoMap.get pid` over the fetched rows (a JavaScript `Map` keyed by
the numeric `p.id`, looked up with SameValueZero equality, no coercion). -/
def productoMapGet (productos : List Producto) (pid : JSVal) : Option Producto :=
  productos.find? (fun p => JSVal.num p.id = pid)

/-- `item.precio_unitario` resolution: caller-supplied value (coerced with
`Number`) takes precedence, else the product's `precio_minorista`. -/
def resolverPrecio (producto : Producto) (item : LineInput) : JNum :=
  if isNullOrUndef item.precio_unitario then some producto.precio_minorista
  else toNumber item.precio_unitario

/-- `item.sub_total` resolution: auto-calculated as
`parseFloat((precio * Number(cantidad)).toFixed(2))` when absent, else the
caller's value coerced and rounded, not recomputed. -/
def resolverSubTotal (precio : JNum) (item : LineInput) : JNum :=
  if isNullOrUndef item.sub_total then jround2 (jmul precio (toNumber item.cantidad))
  else jround2 (toNumber item.sub_total)

/-- Modelled from the spec: `crearMovimiento` (whose body is not part of the
documented source; only its call site is) creates one immutable outbound
InventoryMovement row carrying the line's product, warehouse, quantity and
resolved unit price, with a reason referencing the order, and returns its
fresh id. Here the row is produced for the caller to install under its
transaction, with ids drawn sequentially. -/
def mkMovimiento (nextId : ℕ) (item : LineInput) (precio : JNum) : Movimiento :=
  { id := nextId
    tipo := "salida"
    producto_id := item.producto_id
    almacen_id := item.almacen_id
    cantidad := item.cantidad
    precio_unitario := precio
    venta_ref := item.venta_id }

/-- The per-line loop of `crearDetalleVenta`: validates each item in input
order, resolves `precio_unitario` and `sub_total`, accumulates
`total_subtotales = parseFloat((total_subtotales + sub_total).toFixed(2))`
and issues one movement write per line. On failure the error is returned
together with the movement writes already issued inside the transaction
(they exist until the caller rolls back). -/
def procesar (productos : List Producto) :
    ℕ → JNum → List LineInput →
    Except (VentaErr × List Movimiento) (JNum × List DetalleVenta × List Movimiento)
  | _, tot, [] => .ok (tot, [], [])
  | nextId, tot, item :: rest =>
    if ¬ truthy item.producto_id then .error (.productoObligatorio, [])
    else if ¬ truthy item.cantidad ∨ jleZero (toNumber item.cantidad) then
      .error (.cantidadInvalida, [])
    else
      match productoMapGet productos item.producto_id with
      | none => .error (.productoNoEncontrado item.producto_id, [])
      | some producto =>
        let precio := resolverPrecio producto item
        let sub := resolverSubTotal precio item
        let tot' := jround2 (jadd tot sub)
        let mov := mkMovimiento nextId item precio
        let det : DetalleVenta :=
          { producto_id := item.producto_id
            cantidad := item.cantidad
            almacen_id := item.almacen_id
            venta_id := item.venta_id
            precio_unitario := precio
            sub_total := sub
            movimiento_id := nextId }
        match procesar productos (nextId + 1) tot' rest with
        | .error (e, ws) => .error (e, mov :: ws)
        | .ok (t, ds, ms) => .ok (t, det :: ds, mov :: ms)

/-- `Number(venta.total || 0)`: a stored `NaN` (or a missing total) reads
back as `0`; a finite stored total reads back unchanged. -/
def currentTotalOf (v : Venta) : ℚ :=
  match v.total with
  | some q => q
  | none => 0

/-- `venta_id` of the first batch element, read after the loop to locate
the parent order row. -/
def ventaIdOf (d : List LineInput) : JSVal :=
  match d with
  | [] => .undef
  | item :: _ => item.venta_id

/-- `Venta.findOne({ where: { id: ventaId }, lock: UPDATE })`. -/
def ventaFindOne (ventas : List Venta) (vid : JSVal) : Option Venta :=
  ventas.find? (fun v => JSVal.num v.id = vid)

/-- `crearDetalleVenta(detalleVentaData)` from
`references/transactions.md`: empty-batch guard before the transaction;
batched product fetch; the per-line loop (`procesar`); bulk insert of the
detail rows; pessimistic-locked read of the parent order; the
reconciliation rule `if (currentTotal === 0 || currentTotal <
total_subtotales) venta.total = total_subtotales`; commit on success. The
`catch` branch rolls the transaction back (the tentative writes are
discarded, the returned store is the caller's) and re-throws the original
error. -/
def crearDetalleVenta (s : Store) (d : List LineInput) :
    Store × Except VentaErr (List DetalleVenta) :=
  if d = [] then (s, .error .emptyBatch)
  else
    match procesar (productosFetched s d) s.nextMovId (some 0) d with
    | .error (e, _ws) => (s, .error e)
    | .ok (tot, dets, movs) =>
      if ¬ truthy (ventaIdOf d) then (s, .error .ventaObligatoria)
      else
        match ventaFindOne s.ventas (ventaIdOf d) with
        | none => (s, .error (.ventaNoEncontrada (ventaIdOf d)))
        | some venta =>
          if currentTotalOf venta = 0 ∨ jlt (some (currentTotalOf venta)) tot then
            ({ productos := s.productos
               ventas := s.ventas.map
                 (fun v => if v.id = venta.id then { v with total := tot } else v)
               movimientos := s.movimientos ++ movs
               detalles := s.detalles ++ dets
               nextMovId := s.nextMovId + movs.length }, .ok dets)
          else
            ({ productos := s.productos
               ventas := s.ventas
               movimientos := s.movimientos ++ movs
               detalles := s.detalles ++ dets
               nextMovId := s.nextMovId + movs.length }, .ok dets)

/-- The order total visible in a store for a given primary key. -/
def totalDeVenta (s : Store) (vid : ℕ) : Option JNum :=
  (s.ventas.find? (fun v => v.id = vid)).map (·.total)

/-! ## Identity token codec and authentication middleware -/

/-- The claims carried by a bearer token (`src/config/jwt.ts`): subject id,
username, a primary role for backward-compatible callers, and optionally
the full role-name list. -/
structure JWTPayload where
  id : ℕ
  username : String
  rol : String
  roles : Option (List String)
deriving DecidableEq

/-- A presented bearer token: its decoded claims, its encoded expiry
instant, and whether its signature and structure are intact. -/
structure Token where
  payload : JWTPayload
  exp : ℕ
  sigValid : Bool
deriving DecidableEq

/-- The two error classes of the `jsonwebtoken` library distinguished by
`verificarToken`. -/
inductive JwtErr where
  | expiredError : JwtErr
  | webTokenError : JwtErr
deriving DecidableEq

/-- Modelled from the spec: `jwt.verify` is an external library call, not
part of the repository's sources. Signature and structural integrity are
checked first — a tampered or malformed token raises the generic
`JsonWebTokenError` regardless of its (unauthenticated) `exp` field — and
an otherwise intact token whose encoded expiry is exceeded by the current
time raises `TokenExpiredError`; on success the decoded claims are
returned unchanged. -/
def jwtVerify (now : ℕ) (t : Token) : Except JwtErr JWTPayload :=
  if t.sigValid = false then .error .webTokenError
  else if t.exp < now then .error .expiredError
  else .ok t.payload

/-- `verificarToken` (`src/config/jwt.ts`): wraps `jwt.verify`, mapping
`TokenExpiredError` to `"TOKEN_EXPIRED"` and `JsonWebTokenError` to
`"TOKEN_INVALID"`; never consults the store. -/
def verificarToken (now : ℕ) (t : Token) : Except String JWTPayload :=
  match jwtVerify now t with
  | .ok p => .ok p
  | .error .expiredError => .error "TOKEN_EXPIRED"
  | .error .webTokenError => .error "TOKEN_INVALID"

/-- Outcome of the authentication middleware: attach the decoded payload
to the request and continue, or answer with an HTTP status and a stable
error code. -/
inductive AuthOutcome where
  | ok : JWTPayload → AuthOutcome
  | err : ℕ → String → AuthOutcome
deriving DecidableEq

/-- `autenticarToken` (`src/middlewares/auth.middleware.ts`): with no
bearer token present answers 401 `TOKEN_NOT_PROVIDED`; otherwise verifies
and on failure answers 403 with the thrown error's message as the code. -/
def autenticarToken (now : ℕ) (token : Option Token) : AuthOutcome :=
  match token with
  | none => .err 401 "TOKEN_NOT_PROVIDED"
  | some t =>
    match verificarToken now t with
    | .ok p => .ok p
    | .error code => .err 403 code

/-! ## Role store and role-based authorization -/

/-- A `Rol` row: named permission bucket. -/
structure Rol where
  id : ℕ
  nombre : String
deriving DecidableEq

/-- A `UsuarioRol` row: many-to-many join between subjects and roles. -/
structure UsuarioRol where
  usuario_id : ℕ
  rol_id : ℕ
deriving DecidableEq

/-- The slice of the store consulted by the authorization layer. -/
structure AuthStore where
  roles : List Rol
  usuario_roles : List UsuarioRol
deriving DecidableEq

/-- `UsuarioRol.findAll({ where: { usuario_id }, include: rol })` followed
by `rolesAsignados.map(ur => ur.rol.nombre)`. -/
def rolesDeUsuario (st : AuthStore) (uid : ℕ) : List String :=
  (st.usuario_roles.filter (fun ur => ur.usuario_id = uid)).filterMap
    (fun ur => (st.roles.find? (fun r => r.id = ur.rol_id)).map (fun r => r.nombre))

/-- `req.usuario`, the authenticated subject context attached by
`autenticarToken`; `roles` is the per-request role cache. -/
structure AuthUsuario where
  id : ℕ
  username : String
  rol : String
  roles : Option (List String)
deriving DecidableEq

/-- The request data read by the authorization middleware: HTTP method,
the resolved route path (`req.route?.path || req.path`) and the attached
subject context. -/
structure Req where
  method : String
  path : String
  usuario : Option AuthUsuario
deriving DecidableEq

/-- `sub` occurs somewhere in `s` (JavaScript `String.prototype.includes`),
checked position by position. -/
def includesAux (sub : List Char) : List Char → Bool
  | [] => sub.isEmpty
  | c :: t => sub.isPrefixOf (c :: t) || includesAux sub t

/-- `ruta.includes(fragment)`. -/
def strIncludes (s sub : String) : Bool := includesAux sub.toList s.toList

/-- The generic `accionMap[metodo] || 'Esta operación'` fallback. -/
def accionGenerica (metodo : String) : String :=
  if metodo = "GET" then "Ver este recurso"
  else if metodo = "POST" then "Crear este recurso"
  else if metodo = "PUT" then "Actualizar este recurso"
  else if metodo = "DELETE" then "Eliminar este recurso"
  else if metodo = "PATCH" then "Modificar este recurso"
  else "Esta operación"

/-- `obtenerAccionDeRuta`: human-readable description of the attempted
operation, special-cased for `/usuarios` routes. -/
def obtenerAccionDeRuta (req : Req) : String :=
  let metodo := req.method
  let ruta := req.path
  if strIncludes ruta "/usuarios" then
    if metodo = "GET" ∧ ¬ strIncludes ruta ":id" then "Listar usuarios"
    else if metodo = "GET" ∧ strIncludes ruta ":id" then "Ver detalles de usuario"
    else if metodo = "POST" then "Crear nuevos usuarios"
    else if metodo = "PUT" then "Actualizar usuarios"
    else if metodo = "DELETE" then "Eliminar usuarios"
    else if metodo = "PATCH" ∧ strIncludes ruta "habilitar" then
      "Habilitar/inhabilitar usuarios"
    else accionGenerica metodo
  else accionGenerica metodo

/-- `formatearRoles`: quoted, comma/"o"-joined role list for the error
text; an out-of-range JavaScript index prints as `undefined`. -/
def quoteRol (r : String) : String := "\"" ++ r ++ "\""

/-- The role-list formatting helper from the middleware source. -/
def formatearRoles (roles : List String) : String :=
  if roles.length = 1 then quoteRol (roles.headD "undefined")
  else if roles.length = 2 then
    quoteRol (roles.headD "undefined") ++ " o " ++ quoteRol ((roles.drop 1).headD "undefined")
  else
    let ultimoRol := roles.getLastD "undefined"
    let rolesAnteriores := String.intercalate ", " (roles.dropLast.map quoteRol)
    rolesAnteriores ++ " o " ++ quoteRol ultimoRol

/-- The `detalles` object of the 403 `INSUFFICIENT_PERMISSIONS` response. -/
structure Detalles where
  rolesRequeridos : List String
  usuario : String
  operacion : String
deriving DecidableEq

/-- Outcome of the role guard: continue (with the possibly updated cached
subject context written back to the request) or answer with a status, a
stable code, a human-readable error text and optional details. -/
inductive RolOutcome where
  | next : AuthUsuario → RolOutcome
  | err : ℕ → String → String → Option Detalles → RolOutcome
deriving DecidableEq

/-- `verificarRol(...rolesPermitidos)` (`src/middlewares/auth.middleware.ts`):
401 when no subject is attached; otherwise uses the request-cached role
list when present and queries the store only when it is absent (the
returned `Bool` records whether that query was issued), caches the result
on the request, and allows the operation exactly when the subject has ANY
of the required roles; otherwise answers 403 `INSUFFICIENT_PERMISSIONS`
carrying the required roles, the username and the operation description. -/
def verificarRol (rolesPermitidos : List String) (st : AuthStore) (req : Req) :
    RolOutcome × Bool :=
  match req.usuario with
  | none =>
    (.err 401 "AUTHENTICATION_REQUIRED"
      "Debes estar autenticado para realizar esta acción." none, false)
  | some usuario =>
    let fetched : List String × Bool :=
      match usuario.roles with
      | some rs => (rs, false)
      | none => (rolesDeUsuario st usuario.id, true)
    let rolesU := fetched.1
    let usuarioCacheado : AuthUsuario := { usuario with roles := some rolesU }
    let tienePermiso := rolesU.any (fun rol => rolesPermitidos.any (fun rp => rp = rol))
    if tienePermiso then (.next usuarioCacheado, fetched.2)
    else
      let accion := obtenerAccionDeRuta req
      (.err 403 "INSUFFICIENT_PERMISSIONS"
        ("La operación \"" ++ accion ++ "\" requiere el rol: "
          ++ formatearRoles rolesPermitidos ++ ".")
        (some { rolesRequeridos := rolesPermitidos
                usuario := usuario.username
                operacion := accion }), fetched.2)

/-- The token-payload construction of the login controller
(`src/controllers/usuarios/usuarios.controller.ts`): loads the subject's
roles, picks `roles[0] || "usuario"` as the backward-compatible primary
role, and embeds the full role list in the signed payload. -/
def loginTokenPayload (st : AuthStore) (uid : ℕ) (uname : String) : JWTPayload :=
  let roles := rolesDeUsuario st uid
  let rolPrincipal :=
    match roles with
    | [] => "usuario"
    | r :: _ => if r = "" then "usuario" else r
  { id := uid, username := uname, rol := rolPrincipal, roles := some roles }

/-! ## Arithmetic facts about 2-decimal rounding -/

/-- An exact multiple of 1/100 is a fixed point of `round2`. -/
theorem round2_int_div (k : ℤ) : round2 ((k : ℚ) / 100) = (k : ℚ) / 100 := by
  unfold round2
  rw [div_mul_cancel₀ _ (by norm_num : (100 : ℚ) ≠ 0), round_intCast]

/-- Runtime numbers that are `NaN` or an exact multiple of 1/100 — the
values `total_subtotales` and every resolved `sub_total` range over. -/
def IsCent (x : JNum) : Prop := x = none ∨ ∃ k : ℤ, x = some ((k : ℚ) / 100)

theorem isCent_jround2 (x : JNum) : IsCent (jround2 x) := by
  cases x with
  | none => exact Or.inl rfl
  | some q => exact Or.inr ⟨round (q * 100), rfl⟩

theorem jround2_of_isCent {x : JNum} (h : IsCent x) : jround2 x = x := by
  rcases h with h | ⟨k, h⟩
  · rw [h]; rfl
  · rw [h]
    show some (round2 ((k : ℚ) / 100)) = some ((k : ℚ) / 100)
    rw [round2_int_div]

theorem isCent_jadd {a b : JNum} (ha : IsCent a) (hb : IsCent b) : IsCent (jadd a b) := by
  rcases ha with ha | ⟨k, ha⟩
  · subst ha; exact Or.inl rfl
  rcases hb with hb | ⟨m, hb⟩
  · subst hb; subst ha; exact Or.inl rfl
  subst ha; subst hb
  refine Or.inr ⟨k + m, ?_⟩
  show some ((k : ℚ) / 100 + (m : ℚ) / 100) = some (((k + m : ℤ) : ℚ) / 100)
  rw [div_add_div_same, Int.cast_add]

theorem isCent_resolverSubTotal (precio : JNum) (item : LineInput) :
    IsCent (resolverSubTotal precio item) := by
  unfold resolverSubTotal
  split
  · exact isCent_jround2 _
  · exact isCent_jround2 _

/-! ## Inversion lemmas for the per-line loop -/

/-- A successful loop starting from a `NaN`-or-cent accumulator ends in the
plain `jadd`-sum of the produced subtotals, and that sum is its own
2-decimal rounding. -/
theorem procesar_tot_spec :
    ∀ (d : List LineInput) (ps : List Producto) (n : ℕ) (tot t : JNum)
      (ds : List DetalleVenta) (ms : List Movimiento),
      IsCent tot →
      procesar ps n tot d = .ok (t, ds, ms) →
      t = jround2 (ds.foldl (fun a x => jadd a x.sub_total) tot) := by
  intro d
  induction d with
  | nil =>
    intro ps n tot t ds ms hc h
    simp only [procesar, Except.ok.injEq, Prod.mk.injEq] at h
    obtain ⟨rfl, rfl, rfl⟩ := h
    simp [List.foldl, jround2_of_isCent hc]
  | cons item rest ih =>
    intro ps n tot t ds ms hc h
    simp only [procesar] at h
    split at h
    · exact absurd h (by simp)
    split at h
    · exact absurd h (by simp)
    split at h
    · exact absurd h (by simp)
    next producto heqp =>
      split at h
      · exact absurd h (by simp)
      next out t' ds' ms' heqr =>
        simp only [Except.ok.injEq, Prod.mk.injEq] at h
        obtain ⟨rfl, rfl, rfl⟩ := h
        have hsub := isCent_resolverSubTotal (resolverPrecio producto item) item
        have hc' : IsCent (jadd tot (resolverSubTotal (resolverPrecio producto item) item)) :=
          isCent_jadd hc hsub
        have ht' := ih ps (n + 1) _ t' ds' ms' (isCent_jround2 _) heqr
        rw [ht', List.foldl_cons]
        rw [jround2_of_isCent hc']

/-- A successful loop returns one detail row and one movement per input
line, and the `i`-th detail row is the `i`-th input item with its resolved
price, its resolved subtotal and the `i`-th fresh movement id. -/
theorem procesar_ok_get :
    ∀ (d : List LineInput) (ps : List Producto) (n : ℕ) (tot t : JNum)
      (ds : List DetalleVenta) (ms : List Movimiento),
      procesar ps n tot d = .ok (t, ds, ms) →
      ds.length = d.length ∧ ms.length = d.length ∧
      ∀ i (hd : i < d.length) (hds : i < ds.length),
        ∃ p, productoMapGet ps d[i].producto_id = some p ∧
          ds[i] =
            { producto_id := d[i].producto_id
              cantidad := d[i].cantidad
              almacen_id := d[i].almacen_id
              venta_id := d[i].venta_id
              precio_unitario := resolverPrecio p d[i]
              sub_total := resolverSubTotal (resolverPrecio p d[i]) d[i]
              movimiento_id := n + i } := by
  intro d
  induction d with
  | nil =>
    intro ps n tot t ds ms h
    simp only [procesar, Except.ok.injEq, Prod.mk.injEq] at h
    obtain ⟨rfl, rfl, rfl⟩ := h
    refine ⟨rfl, rfl, ?_⟩
    intro i hd _hds
    exact absurd hd (by simp)
  | cons item rest ih =>
    intro ps n tot t ds ms h
    simp only [procesar] at h
    split at h
    · exact absurd h (by simp)
    split at h
    · exact absurd h (by simp)
    split at h
    · exact absurd h (by simp)
    next producto heqp =>
      split at h
      · exact absurd h (by simp)
      next out t' ds' ms' heqr =>
        simp only [Except.ok.injEq, Prod.mk.injEq] at h
        obtain ⟨rfl, rfl, rfl⟩ := h
        obtain ⟨hl1, hl2, hget⟩ := ih ps (n + 1) _ t' ds' ms' heqr
        refine ⟨by simpa using hl1, by simpa using hl2, ?_⟩
        intro i hd hds
        cases i with
        | zero => exact ⟨producto, heqp, rfl⟩
        | succ j =>
          have hd' : j < rest.length := by simpa using hd
          have hds' : j < ds'.length := by simpa using hds
          obtain ⟨p, hp, hrec⟩ := hget j hd' hds'
          refine ⟨p, by simpa using hp, ?_⟩
          have hnj : n + 1 + j = n + (j + 1) := by omega
          simpa [hnj] using hrec

/-- The loop's validations, product lookups and computed totals do not
depend on the movement-id sequence: two runs of the same batch against the
same product rows succeed together and compute the same
`total_subtotales`. -/
theorem procesar_tot_indep :
    ∀ (d : List LineInput) (ps : List Producto) (n m : ℕ) (tot t1 t2 : JNum)
      (ds1 ds2 : List DetalleVenta) (ms1 ms2 : List Movimiento),
      procesar ps n tot d = .ok (t1, ds1, ms1) →
      procesar ps m tot d = .ok (t2, ds2, ms2) →
      t1 = t2 := by
  intro d
  induction d with
  | nil =>
    intro ps n m tot t1 t2 ds1 ds2 ms1 ms2 h1 h2
    simp only [procesar, Except.ok.injEq, Prod.mk.injEq] at h1 h2
    rw [← h1.1, ← h2.1]
  | cons item rest ih =>
    intro ps n m tot t1 t2 ds1 ds2 ms1 ms2 h1 h2
    simp only [procesar] at h1 h2
    by_cases c1 : ¬ truthy item.producto_id
    · rw [if_pos c1] at h1; exact absurd h1 (by simp)
    rw [if_neg c1] at h1 h2
    by_cases c2 : ¬ truthy item.cantidad ∨ jleZero (toNumber item.cantidad)
    · rw [if_pos c2] at h1; exact absurd h1 (by simp)
    rw [if_neg c2] at h1 h2
    rcases hm : productoMapGet ps item.producto_id with _ | producto
    · rw [hm] at h1; exact absurd h1 (by simp)
    rw [hm] at h1 h2
    dsimp only at h1 h2
    rcases hr1 : procesar ps (n + 1)
        (jround2 (jadd tot (resolverSubTotal (resolverPrecio producto item) item))) rest with
      ⟨e1, ws1⟩ | ⟨t1', ds1', ms1'⟩
    · rw [hr1] at h1; exact absurd h1 (by simp)
    rw [hr1] at h1
    rcases hr2 : procesar ps (m + 1)
        (jround2 (jadd tot (resolverSubTotal (resolverPrecio producto item) item))) rest with
      ⟨e2, ws2⟩ | ⟨t2', ds2', ms2'⟩
    · rw [hr2] at h2; exact absurd h2 (by simp)
    rw [hr2] at h2
    simp only [Except.ok.injEq, Prod.mk.injEq] at h1 h2
    rw [← h1.1, ← h2.1]
    exact ih ps (n + 1) (m + 1) _ t1' t2' ds1' ds2' ms1' ms2' hr1 hr2

/-- When the very first line of the loop references an absent product, the
unknown-product error is raised with no movement write issued at all. -/
theorem procesar_head_unknown (ps : List Producto) (n : ℕ) (tot : JNum)
    (item : LineInput) (rest : List LineInput)
    (h1 : truthy item.producto_id = true)
    (h2 : ¬ (¬ truthy item.cantidad ∨ jleZero (toNumber item.cantidad)))
    (h3 : productoMapGet ps item.producto_id = none) :
    procesar ps n tot (item :: rest) =
      .error (.productoNoEncontrado item.producto_id, []) := by
  simp only [procesar]
  rw [if_neg (by simp [h1]), if_neg h2, h3]

/-- Predicate-congruence for `find?`. -/
theorem find_congr2 {α : Type} (p q : α → Bool) (l : List α) (h : ∀ a, p a = q a) :
    l.find? p = l.find? q := by
  induction l with
  | nil => rfl
  | cons a l ih =>
    cases hpa : p a with
    | true =>
      rw [List.find?_cons_of_pos _ hpa, List.find?_cons_of_pos _ (by rw [← h a]; exact hpa)]
    | false =>
      rw [List.find?_cons_of_neg _ (by simp [hpa]),
        List.find?_cons_of_neg _ (by simp [← h a, hpa]), ih]

/-- A map that fixes every element of a list is the identity on it. -/
theorem map_eq_self_of {α : Type} (f : α → α) (l : List α) (h : ∀ a ∈ l, f a = a) :
    l.map f = l := by
  induction l with
  | nil => rfl
  | cons a l ih =>
    simp only [List.map_cons]
    rw [h a (by simp), ih (fun x hx => h x (by simp [hx]))]

/-- Every run of `crearDetalleVenta` either fails — returning the caller's
store untouched (rollback) — or succeeds, committing exactly the tentative
writes: the movements and detail rows appended, the id sequence advanced,
and the parent order's total reconciled by the business rule. -/
theorem crearDetalleVenta_shape (s : Store) (d : List LineInput) :
    (∃ e, crearDetalleVenta s d = (s, .error e)) ∨
    (∃ tot ds ms venta,
      procesar (productosFetched s d) s.nextMovId (some 0) d = Except.ok (tot, ds, ms) ∧
      ventaFindOne s.ventas (ventaIdOf d) = some venta ∧
      crearDetalleVenta s d =
        ({ productos := s.productos
           ventas :=
             if currentTotalOf venta = 0 ∨ jlt (some (currentTotalOf venta)) tot then
               s.ventas.map (fun v => if v.id = venta.id then { v with total := tot } else v)
             else s.ventas
           movimientos := s.movimientos ++ ms
           detalles := s.detalles ++ ds
           nextMovId := s.nextMovId + ms.length }, Except.ok ds)) := by
  by_cases hd : d = []
  · exact Or.inl ⟨.emptyBatch, by unfold crearDetalleVenta; rw [if_pos hd]⟩
  rcases hp : procesar (productosFetched s d) s.nextMovId (some 0) d with ⟨e, ws⟩ | ⟨tot, ds, ms⟩
  · exact Or.inl ⟨e, by unfold crearDetalleVenta; rw [if_neg hd, hp]⟩
  by_cases hv : ¬ truthy (ventaIdOf d)
  · exact Or.inl ⟨.ventaObligatoria, by
      unfold crearDetalleVenta; rw [if_neg hd, hp]; dsimp only; rw [if_pos hv]⟩
  rcases hw : ventaFindOne s.ventas (ventaIdOf d) with _ | venta
  · exact Or.inl ⟨.ventaNoEncontrada (ventaIdOf d), by
      unfold crearDetalleVenta; rw [if_neg hd, hp]; dsimp only; rw [if_neg hv, hw]⟩
  refine Or.inr ⟨tot, ds, ms, venta, rfl, rfl, ?_⟩
  unfold crearDetalleVenta
  rw [if_neg hd, hp]
  dsimp only
  rw [if_neg hv, hw]
  dsimp only
  by_cases hr : currentTotalOf venta = 0 ∨ jlt (some (currentTotalOf venta)) tot
  · rw [if_pos hr, if_pos hr]
  · rw [if_neg hr, if_neg hr]

/-- The row located by `ventaFindOne` is also the first row bearing its own
primary key: the lookup key determines the `id` field. -/
theorem ventaFindOne_by_id {l : List Venta} {vid : JSVal} {venta : Venta}
    (h : ventaFindOne l vid = some venta) :
    l.find? (fun v => v.id = venta.id) = some venta := by
  have hj : JSVal.num venta.id = vid := by
    have := List.find?_some h
    simpa using this
  have hpq : ∀ v : Venta, (decide (v.id = venta.id)) = (decide (JSVal.num v.id = vid)) := by
    intro v
    rw [← hj]
    simp [decide_eq_decide, JSVal.num.injEq]
  rw [find_congr2 _ _ l hpq]
  exact h

/-- C1: after the parent order row is locked, a successful posting
overwrites the order's total with `totalSubtotals` exactly when the
current total is zero or strictly below `totalSubtotals`, and leaves it
untouched otherwise. -/
theorem C1_reconciliation_rule (s : Store) (d : List LineInput) (s' : Store)
    (L ds : List DetalleVenta) (tot : JNum) (ms : List Movimiento) (venta : Venta)
    (hrun : crearDetalleVenta s d = (s', Except.ok L))
    (hproc : procesar (productosFetched s d) s.nextMovId (some 0) d = Except.ok (tot, ds, ms))
    (hfind : ventaFindOne s.ventas (ventaIdOf d) = some venta) :
    totalDeVenta s' venta.id =
      some (if currentTotalOf venta = 0 ∨ jlt (some (currentTotalOf venta)) tot
            then tot else venta.total) := by
  rcases crearDetalleVenta_shape s d with ⟨e, heq⟩ | ⟨tot', ds', ms', venta', hp', hw', heq⟩
  · rw [hrun] at heq
    exact absurd (congrArg Prod.snd heq) (by simp)
  · rw [hproc] at hp'
    simp only [Except.ok.injEq, Prod.mk.injEq] at hp'
    obtain ⟨rfl, rfl, rfl⟩ := hp'
    rw [hfind] at hw'
    simp only [Option.some.injEq] at hw'
    subst hw'
    rw [hrun] at heq
    simp only [Prod.mk.injEq] at heq
    have hfid := ventaFindOne_by_id hfind
    by_cases hr : currentTotalOf venta = 0 ∨ jlt (some (currentTotalOf venta)) tot
    · rw [if_pos hr]
      simp only [totalDeVenta, heq.1, if_pos hr]
      have hpreserve : ∀ v : Venta,
          (decide ((if v.id = venta.id then { v with total := tot } else v).id = venta.id)) =
            (decide (v.id = venta.id)) := by
        intro v
        by_cases hv : v.id = venta.id <;> simp [hv]
      rw [List.find?_map]
      simp only [Function.comp_def]
      rw [find_congr2 _ _ s.ventas hpreserve, hfid]
      simp
    · rw [if_neg hr]
      simp only [totalDeVenta, heq.1, if_neg hr]
      rw [hfid]
      simp

/-! ## Concrete fixtures for closed instances -/

/-- Store with two priced products and order 7 already totalling 100.00. -/
def s100 : Store := ⟨[⟨1, 10⟩, ⟨2, 5⟩], [⟨7, some 100⟩], [], [], 0⟩

/-- Batch for order 7: two of product 1 at its list price 10.00 and one of
product 2 at its list price 5.00 — subtotals 20.00 + 5.00 = 25.00. -/
def d25 : List LineInput :=
  [⟨.num 1, .num 2, .num 1, .num 7, .undef, .undef⟩,
   ⟨.num 2, .num 1, .num 1, .num 7, .undef, .undef⟩]

/-- The detail rows the engine creates for `d25`. -/
def L25 : List DetalleVenta :=
  [⟨.num 1, .num 2, .num 1, .num 7, some 10, some 20, 0⟩,
   ⟨.num 2, .num 1, .num 1, .num 7, some 5, some 5, 1⟩]

/-- The movements the engine creates for `d25`. -/
def M25 : List Movimiento :=
  [⟨0, "salida", .num 1, .num 1, .num 2, some 10, .num 7⟩,
   ⟨1, "salida", .num 2, .num 1, .num 1, some 5, .num 7⟩]

/-- The committed store after posting `d25` against `s100`: rows and
movements appended, order total untouched (100.00 ≥ 25.00 and ≠ 0). -/
def s100post : Store := ⟨[⟨1, 10⟩, ⟨2, 5⟩], [⟨7, some 100⟩], M25, L25, 2⟩

/-- Witness for C1 at the spec's scenario: order 7 already has total
100.00; posting lines summing to 25.00 leaves the total at 100.00. -/
theorem C1_reconciliation_rule_witness :
    crearDetalleVenta s100 d25 = (s100post, Except.ok L25) ∧
    procesar (productosFetched s100 d25) s100.nextMovId (some 0) d25 =
      Except.ok (some 25, L25, M25) ∧
    ventaFindOne s100.ventas (ventaIdOf d25) = some ⟨7, some 100⟩ ∧
    totalDeVenta s100post (Venta.mk 7 (some 100)).id =
      some (if currentTotalOf ⟨7, some 100⟩ = 0 ∨
              jlt (some (currentTotalOf ⟨7, some 100⟩)) (some 25)
            then some 25 else (Venta.mk 7 (some 100)).total) ∧
    totalDeVenta s100post 7 = some (some 100) := by
  have hproc : procesar (productosFetched s100 d25) s100.nextMovId (some 0) d25 =
      Except.ok (some 25, L25, M25) := by
    norm_num [procesar, productosFetched, s100, d25, L25, M25, dedup, productoMapGet,
      resolverPrecio, resolverSubTotal, isNullOrUndef, truthy, toNumber, jround2, jadd,
      jmul, jleZero, round2, round_eq, mkMovimiento]
  have hfind : ventaFindOne s100.ventas (ventaIdOf d25) = some ⟨7, some 100⟩ := by
    norm_num [ventaFindOne, s100, ventaIdOf, d25]
  have htr : truthy (ventaIdOf d25) = true := by norm_num [truthy, ventaIdOf, d25]
  have hne : d25 ≠ [] := by simp [d25]
  have hrun : crearDetalleVenta s100 d25 = (s100post, Except.ok L25) := by
    unfold crearDetalleVenta
    rw [if_neg hne, hproc]
    dsimp only
    rw [if_neg (by simp [htr]), hfind]
    dsimp only
    rw [if_neg (by norm_num [currentTotalOf, jlt])]
    norm_num [s100, s100post, M25, L25]
  refine ⟨hrun, hproc, hfind, ?_, ?_⟩
  · exact C1_reconciliation_rule s100 d25 s100post L25 L25 (some 25) M25 ⟨7, some 100⟩
      hrun hproc hfind
  · norm_num [totalDeVenta, s100post]

/-- C2: every failing run of `crearDetalleVenta` returns the caller's
store unchanged — no detail row, movement or order-total write persists —
and a loop failure is re-raised as the original error, unchanged. -/
theorem C2_rollback_total (s : Store) (d : List LineInput) :
    (∀ e, (crearDetalleVenta s d).2 = .error e → (crearDetalleVenta s d).1 = s) ∧
    (∀ e ws, d ≠ [] →
      procesar (productosFetched s d) s.nextMovId (some 0) d = .error (e, ws) →
      crearDetalleVenta s d = (s, .error e)) := by
  constructor
  · intro e he
    rcases crearDetalleVenta_shape s d with ⟨e', heq⟩ | ⟨tot, ds, ms, venta, hp, hw, heq⟩
    · rw [heq]
    · rw [heq] at he
      exact absurd he (by simp)
  · intro e ws hne hp
    unfold crearDetalleVenta
    rw [if_neg hne, hp]

/-- Batch whose single line references the absent product 99. -/
def dBad : List LineInput := [⟨.num 99, .num 1, .num 1, .num 7, .undef, .undef⟩]

/-- Witness for C2: posting `dBad` against `s100` fails with the
unknown-product error and leaves the store exactly as it was. -/
theorem C2_rollback_total_witness :
    dBad ≠ [] ∧
    procesar (productosFetched s100 dBad) s100.nextMovId (some 0) dBad =
      .error (.productoNoEncontrado (.num 99), []) ∧
    crearDetalleVenta s100 dBad = (s100, .error (.productoNoEncontrado (.num 99))) := by
  have hp : procesar (productosFetched s100 dBad) s100.nextMovId (some 0) dBad =
      .error (.productoNoEncontrado (.num 99), []) := by
    norm_num [procesar, productosFetched, dBad, s100, dedup, productoMapGet, truthy,
      toNumber, jleZero]
  exact ⟨by simp [dBad], hp, (C2_rollback_total s100 dBad).2 _ _ (by simp [dBad]) hp⟩

/-- Batch for order 7 whose second line references the absent product 99;
the first line is valid. -/
def d3 : List LineInput :=
  [⟨.num 1, .num 1, .num 1, .num 7, .undef, .undef⟩,
   ⟨.num 99, .num 1, .num 1, .num 7, .undef, .undef⟩]

/-- Counterexample to C3 as stated: when the offending line sits at the
second position, the unknown-product error is detected only after the
first line's inventory-movement write was already issued inside the
transaction — the error carries one prior write, not zero. -/
theorem C3_later_position_counterexample :
    procesar (productosFetched s100 d3) s100.nextMovId (some 0) d3 =
      .error (.productoNoEncontrado (.num 99),
        [⟨0, "salida", .num 1, .num 1, .num 1, some 10, .num 7⟩]) ∧
    ([⟨0, "salida", .num 1, .num 1, .num 1, some 10, .num 7⟩] : List Movimiento) ≠ [] := by
  constructor
  · norm_num [procesar, productosFetched, d3, s100, dedup, productoMapGet, truthy,
      toNumber, jleZero, resolverPrecio, resolverSubTotal, isNullOrUndef, jround2,
      jadd, jmul, round2, round_eq, mkMovimiento]
  · simp

/-- C3 (amended): the absent-product check runs per line inside the loop —
an offending first line is detected before any write is issued, and a loop
failure at any position rolls the transaction back so that no issued write
persists and the unknown-product error propagates unchanged. -/
theorem C3_unknown_product_check (ps : List Producto) (n : ℕ) (tot : JNum)
    (item : LineInput) (rest : List LineInput) (s : Store) (d : List LineInput)
    (e : VentaErr) (ws : List Movimiento) :
    (truthy item.producto_id = true →
      ¬ (¬ truthy item.cantidad ∨ jleZero (toNumber item.cantidad)) →
      productoMapGet ps item.producto_id = none →
      procesar ps n tot (item :: rest) =
        .error (.productoNoEncontrado item.producto_id, [])) ∧
    (d ≠ [] →
      procesar (productosFetched s d) s.nextMovId (some 0) d = .error (e, ws) →
      crearDetalleVenta s d = (s, .error e)) :=
  ⟨fun h1 h2 h3 => procesar_head_unknown ps n tot item rest h1 h2 h3,
   fun hne hp => by unfold crearDetalleVenta; rw [if_neg hne, hp]⟩

/-- Witness for the amended C3: an offending first line (`dBad` against
`s100`) is rejected with zero prior writes, and the second-position run
(`d3`) rolls back to the untouched store. -/
theorem C3_unknown_product_check_witness :
    truthy (JSVal.num 99) = true ∧
    ¬ (¬ truthy (JSVal.num 1) ∨ jleZero (toNumber (JSVal.num 1))) ∧
    productoMapGet (productosFetched s100 dBad) (JSVal.num 99) = none ∧
    procesar (productosFetched s100 dBad) 0 (some 0)
      (⟨.num 99, .num 1, .num 1, .num 7, .undef, .undef⟩ :: []) =
        .error (.productoNoEncontrado (JSVal.num 99), []) ∧
    d3 ≠ [] ∧
    procesar (productosFetched s100 d3) s100.nextMovId (some 0) d3 =
      .error (.productoNoEncontrado (.num 99),
        [⟨0, "salida", .num 1, .num 1, .num 1, some 10, .num 7⟩]) ∧
    crearDetalleVenta s100 d3 = (s100, .error (.productoNoEncontrado (.num 99))) := by
  have h1 : truthy (JSVal.num 99) = true := by norm_num [truthy]
  have h2 : ¬ (¬ truthy (JSVal.num 1) ∨ jleZero (toNumber (JSVal.num 1))) := by
    norm_num [truthy, toNumber, jleZero]
  have h3 : productoMapGet (productosFetched s100 dBad) (JSVal.num 99) = none := by
    norm_num [productoMapGet, productosFetched, dBad, s100, dedup]
  have hp3 : procesar (productosFetched s100 d3) s100.nextMovId (some 0) d3 =
      .error (.productoNoEncontrado (.num 99),
        [⟨0, "salida", .num 1, .num 1, .num 1, some 10, .num 7⟩]) := by
    norm_num [procesar, productosFetched, d3, s100, dedup, productoMapGet, truthy,
      toNumber, jleZero, resolverPrecio, resolverSubTotal, isNullOrUndef, jround2,
      jadd, jmul, round2, round_eq, mkMovimiento]
  refine ⟨h1, h2, h3, ?_, by simp [d3], hp3, ?_⟩
  · exact (C3_unknown_product_check (productosFetched s100 dBad) 0 (some 0)
      ⟨.num 99, .num 1, .num 1, .num 7, .undef, .undef⟩ [] s100 d3
      (.productoNoEncontrado (.num 99)) []).1 h1 h2 h3
  · exact (C3_unknown_product_check (productosFetched s100 dBad) 0 (some 0)
      ⟨.num 99, .num 1, .num 1, .num 7, .undef, .undef⟩ [] s100 d3
      (.productoNoEncontrado (.num 99))
      [⟨0, "salida", .num 1, .num 1, .num 1, some 10, .num 7⟩]).2 (by simp [d3]) hp3

/-- Batch whose single line carries the non-numeric quantity `"abc"`
(with a caller-supplied subtotal). -/
def dBug : List LineInput := [⟨.num 1, .str "abc", .num 1, .num 7, .undef, .num 5⟩]

/-- C4 evaluated at the failing input: `"abc"` is truthy and its numeric
coercion is `NaN`, so `!cantidad || Number(cantidad) <= 0` is false
(`NaN <= 0` is false) and the whole batch posts successfully instead of
being rejected with the invalid-line error. -/
theorem C4_nonnumeric_cantidad_accepted :
    truthy (JSVal.str "abc") = true ∧
    toNumber (JSVal.str "abc") = none ∧
    jleZero (toNumber (JSVal.str "abc")) = false ∧
    (crearDetalleVenta s100 dBug).2 =
      Except.ok [⟨.num 1, .str "abc", .num 1, .num 7, some 10, some 5, 0⟩] := by
  have htn : toNumber (JSVal.str "abc") = none := by decide
  have hstr : strToNum "abc" = none := by decide
  have habc : ("abc" : String) ≠ "" := by decide
  have hp : procesar (productosFetched s100 dBug) s100.nextMovId (some 0) dBug =
      Except.ok (some 5, [⟨.num 1, .str "abc", .num 1, .num 7, some 10, some 5, 0⟩],
        [⟨0, "salida", .num 1, .num 1, .str "abc", some 10, .num 7⟩]) := by
    norm_num [procesar, productosFetched, dBug, s100, dedup, productoMapGet, truthy,
      toNumber, hstr, habc, jleZero, resolverPrecio, resolverSubTotal, isNullOrUndef,
      jround2, jadd, jmul, round2, round_eq, mkMovimiento]
  have hfind : ventaFindOne s100.ventas (ventaIdOf dBug) = some ⟨7, some 100⟩ := by
    norm_num [ventaFindOne, s100, ventaIdOf, dBug]
  refine ⟨rfl, htn, by rw [htn]; rfl, ?_⟩
  unfold crearDetalleVenta
  rw [if_neg (by simp [dBug]), hp]
  dsimp only
  rw [if_neg (by norm_num [truthy, ventaIdOf, dBug]), hfind]
  dsimp only
  rw [if_neg (by norm_num [currentTotalOf, jlt])]

/-- The batched product fetch depends only on the product table. -/
theorem productosFetched_congr {s sb : Store} (d : List LineInput)
    (h : sb.productos = s.productos) : productosFetched sb d = productosFetched s d := by
  unfold productosFetched
  rw [h]

/-- Looking the order up again after its total was overwritten returns the
same row with the new total. -/
theorem ventaFindOne_map_update (l : List Venta) (vid : JSVal) (venta : Venta) (tot : JNum)
    (h : ventaFindOne l vid = some venta) :
    ventaFindOne (l.map (fun v => if v.id = venta.id then { v with total := tot } else v)) vid =
      some { venta with total := tot } := by
  unfold ventaFindOne at h ⊢
  rw [List.find?_map]
  have hcomp : ∀ v : Venta,
      (decide (JSVal.num (if v.id = venta.id then { v with total := tot } else v).id = vid)) =
        (decide (JSVal.num v.id = vid)) := by
    intro v
    by_cases hv : v.id = venta.id <;> simp [hv]
  simp only [Function.comp_def]
  rw [find_congr2 _ _ l hcomp, h]
  simp

/-- Overwriting an order total twice with the same value is the same as
overwriting it once. -/
theorem map_update_idem (l : List Venta) (i : ℕ) (tot : JNum) :
    (l.map (fun v => if v.id = i then { v with total := tot } else v)).map
      (fun v => if v.id = i then { v with total := tot } else v) =
    l.map (fun v => if v.id = i then { v with total := tot } else v) := by
  apply map_eq_self_of
  intro a ha
  rcases List.mem_map.1 ha with ⟨w, _hw, rfl⟩
  by_cases h : w.id = i <;> simp [h]

/-- C5 (amended): replaying an identical batch creates a second,
independent set of movement records (one per line, again), but the order
total after the second call equals the total after the first call — the
reconciliation rule leaves a total that already equals the new subtotal
sum untouched, so the total does not grow. -/
theorem C5_replay_movements_and_total (s s1 s2 : Store) (d : List LineInput)
    (L1 L2 : List DetalleVenta)
    (h1 : crearDetalleVenta s d = (s1, Except.ok L1))
    (h2 : crearDetalleVenta s1 d = (s2, Except.ok L2)) :
    s1.movimientos.length = s.movimientos.length + L1.length ∧
    s2.movimientos.length = s1.movimientos.length + L2.length ∧
    s2.ventas = s1.ventas := by
  rcases crearDetalleVenta_shape s d with ⟨e, heq⟩ | ⟨tot, ds, ms, venta, hp, hw, heq1⟩
  · rw [h1] at heq
    exact absurd (congrArg Prod.snd heq) (by simp)
  rw [h1] at heq1
  simp only [Prod.mk.injEq, Except.ok.injEq] at heq1
  obtain ⟨hs1, hL1⟩ := heq1
  rcases crearDetalleVenta_shape s1 d with ⟨e, heq⟩ | ⟨tot2, ds2, ms2, venta2, hp2, hw2, heq2⟩
  · rw [h2] at heq
    exact absurd (congrArg Prod.snd heq) (by simp)
  rw [h2] at heq2
  simp only [Prod.mk.injEq, Except.ok.injEq] at heq2
  obtain ⟨hs2, hL2⟩ := heq2
  obtain ⟨hdsl, hmsl, -⟩ := procesar_ok_get d _ _ _ _ _ _ hp
  obtain ⟨hdsl2, hmsl2, -⟩ := procesar_ok_get d _ _ _ _ _ _ hp2
  have hpf : productosFetched s1 d = productosFetched s d :=
    productosFetched_congr d (by rw [hs1])
  have hp2' : procesar (productosFetched s d) s1.nextMovId (some 0) d =
      .ok (tot2, ds2, ms2) := by
    rw [← hpf]; exact hp2
  have htot : tot2 = tot :=
    procesar_tot_indep d _ s1.nextMovId s.nextMovId (some 0) _ _ _ _ _ _ hp2' hp
  subst htot
  refine ⟨?_, ?_, ?_⟩
  · rw [hs1]
    dsimp only
    rw [List.length_append, hmsl, hL1, hdsl]
  · rw [hs2]
    dsimp only
    rw [List.length_append, hmsl2, hL2, hdsl2]
  · have hsv : s1.ventas =
        (if currentTotalOf venta = 0 ∨ jlt (some (currentTotalOf venta)) tot2 then
          s.ventas.map (fun v => if v.id = venta.id then { v with total := tot2 } else v)
        else s.ventas) := by
      rw [hs1]
    have hs2v : s2.ventas =
        (if currentTotalOf venta2 = 0 ∨ jlt (some (currentTotalOf venta2)) tot2 then
          s1.ventas.map (fun v => if v.id = venta2.id then { v with total := tot2 } else v)
        else s1.ventas) := by
      rw [hs2]
    by_cases hc : currentTotalOf venta = 0 ∨ jlt (some (currentTotalOf venta)) tot2
    · rw [if_pos hc] at hsv
      have hupd := ventaFindOne_map_update s.ventas (ventaIdOf d) venta tot2 hw
      have hv2 : venta2 = { venta with total := tot2 } := by
        rw [hsv, hupd] at hw2
        simpa using hw2.symm
      rw [hs2v, hv2, hsv]
      dsimp only
      split
      · exact map_update_idem s.ventas venta.id tot2
      · rfl
    · rw [if_neg hc] at hsv
      have hv2 : venta2 = venta := by
        rw [hsv, hw] at hw2
        simpa using hw2.symm
      rw [hs2v, hv2, if_neg hc]

/-- Store with one product priced 10.00 and order 7 at total 0. -/
def s10 : Store := ⟨[⟨1, 10⟩], [⟨7, some 0⟩], [], [], 0⟩

/-- One-line batch for order 7: one unit of product 1 at its list price. -/
def dOne : List LineInput := [⟨.num 1, .num 1, .num 1, .num 7, .undef, .undef⟩]

/-- Detail row created by the first posting of `dOne`. -/
def det10a : DetalleVenta := ⟨.num 1, .num 1, .num 1, .num 7, some 10, some 10, 0⟩

/-- Detail row created by the second, identical posting of `dOne`. -/
def det10b : DetalleVenta := ⟨.num 1, .num 1, .num 1, .num 7, some 10, some 10, 1⟩

/-- Movement created by the first posting of `dOne`. -/
def mov10a : Movimiento := ⟨0, "salida", .num 1, .num 1, .num 1, some 10, .num 7⟩

/-- Movement created by the second posting of `dOne`. -/
def mov10b : Movimiento := ⟨1, "salida", .num 1, .num 1, .num 1, some 10, .num 7⟩

/-- Store after the first posting: total set to 10.00. -/
def s10a : Store := ⟨[⟨1, 10⟩], [⟨7, some 10⟩], [mov10a], [det10a], 1⟩

/-- Store after the second posting: movements doubled, total still 10.00. -/
def s10b : Store := ⟨[⟨1, 10⟩], [⟨7, some 10⟩], [mov10a, mov10b], [det10a, det10b], 2⟩

/-- First posting of `dOne` against `s10`, evaluated. -/
theorem run_s10_first : crearDetalleVenta s10 dOne = (s10a, Except.ok [det10a]) := by
  have hp : procesar (productosFetched s10 dOne) s10.nextMovId (some 0) dOne =
      Except.ok (some 10, [det10a], [mov10a]) := by
    norm_num [procesar, productosFetched, s10, dOne, det10a, mov10a, dedup, productoMapGet,
      resolverPrecio, resolverSubTotal, isNullOrUndef, truthy, toNumber, jround2, jadd,
      jmul, jleZero, round2, round_eq, mkMovimiento]
  have hfind : ventaFindOne s10.ventas (ventaIdOf dOne) = some ⟨7, some 0⟩ := by
    norm_num [ventaFindOne, s10, ventaIdOf, dOne]
  unfold crearDetalleVenta
  rw [if_neg (by simp [dOne]), hp]
  dsimp only
  rw [if_neg (by norm_num [truthy, ventaIdOf, dOne]), hfind]
  dsimp only
  rw [if_pos (Or.inl (by norm_num [currentTotalOf]))]
  norm_num [s10, s10a, det10a, mov10a]

/-- Second, identical posting against the store left by the first. -/
theorem run_s10_second : crearDetalleVenta s10a dOne = (s10b, Except.ok [det10b]) := by
  have hp : procesar (productosFetched s10a dOne) s10a.nextMovId (some 0) dOne =
      Except.ok (some 10, [det10b], [mov10b]) := by
    norm_num [procesar, productosFetched, s10a, dOne, det10b, mov10b, mov10a, det10a,
      dedup, productoMapGet, resolverPrecio, resolverSubTotal, isNullOrUndef, truthy,
      toNumber, jround2, jadd, jmul, jleZero, round2, round_eq, mkMovimiento]
  have hfind : ventaFindOne s10a.ventas (ventaIdOf dOne) = some ⟨7, some 10⟩ := by
    norm_num [ventaFindOne, s10a, ventaIdOf, dOne]
  unfold crearDetalleVenta
  rw [if_neg (by simp [dOne]), hp]
  dsimp only
  rw [if_neg (by norm_num [truthy, ventaIdOf, dOne]), hfind]
  dsimp only
  rw [if_neg (by norm_num [currentTotalOf, jlt])]
  norm_num [s10a, s10b, det10b, mov10b, mov10a, det10a]

/-- Counterexample to C5 as stated: replaying the identical one-line batch
produces a second independent movement (1 movement, then 2) but the order
total after the second call is 10.00, exactly as after the first call —
not "correspondingly larger". -/
theorem C5_total_not_larger_counterexample :
    crearDetalleVenta s10 dOne = (s10a, Except.ok [det10a]) ∧
    crearDetalleVenta s10a dOne = (s10b, Except.ok [det10b]) ∧
    s10a.movimientos.length = 1 ∧
    s10b.movimientos.length = 2 ∧
    totalDeVenta s10a 7 = some (some 10) ∧
    totalDeVenta s10b 7 = some (some 10) := by
  refine ⟨run_s10_first, run_s10_second, rfl, rfl, ?_, ?_⟩ <;>
    norm_num [totalDeVenta, s10a, s10b]

/-- Witness for the amended C5 at the concrete replay. -/
theorem C5_replay_movements_and_total_witness :
    crearDetalleVenta s10 dOne = (s10a, Except.ok [det10a]) ∧
    crearDetalleVenta s10a dOne = (s10b, Except.ok [det10b]) ∧
    (s10a.movimientos.length = s10.movimientos.length + [det10a].length ∧
     s10b.movimientos.length = s10a.movimientos.length + [det10b].length ∧
     s10b.ventas = s10a.ventas) :=
  ⟨run_s10_first, run_s10_second,
    C5_replay_movements_and_total s10 s10a s10b dOne [det10a] [det10b]
      run_s10_first run_s10_second⟩

/-- The loop over `d25` against `s100`, evaluated. -/
theorem proc_s100 : procesar (productosFetched s100 d25) s100.nextMovId (some 0) d25 =
    Except.ok (some 25, L25, M25) := by
  norm_num [procesar, productosFetched, s100, d25, L25, M25, dedup, productoMapGet,
    resolverPrecio, resolverSubTotal, isNullOrUndef, truthy, toNumber, jround2, jadd,
    jmul, jleZero, round2, round_eq, mkMovimiento]

/-- Posting `d25` against `s100`, evaluated. -/
theorem run_s100 : crearDetalleVenta s100 d25 = (s100post, Except.ok L25) := by
  have hfind : ventaFindOne s100.ventas (ventaIdOf d25) = some ⟨7, some 100⟩ := by
    norm_num [ventaFindOne, s100, ventaIdOf, d25]
  unfold crearDetalleVenta
  rw [if_neg (by simp [d25]), proc_s100]
  dsimp only
  rw [if_neg (by norm_num [truthy, ventaIdOf, d25]), hfind]
  dsimp only
  rw [if_neg (by norm_num [currentTotalOf, jlt])]
  norm_num [s100, s100post, M25, L25]

/-- C6: in a successful batch, every returned line's unit price is the
caller-supplied `precio_unitario` when one was supplied and the product's
list price otherwise, and its subtotal is `round2(price × quantity)` when
no `sub_total` was supplied and the caller's `sub_total` rounded to 2
decimals (not recomputed) when one was. -/
theorem C6_price_and_subtotal (s : Store) (d : List LineInput) (s' : Store)
    (L ds : List DetalleVenta) (tot : JNum) (ms : List Movimiento)
    (hrun : crearDetalleVenta s d = (s', Except.ok L))
    (hproc : procesar (productosFetched s d) s.nextMovId (some 0) d =
      Except.ok (tot, ds, ms)) :
    ∀ i (hd : i < d.length) (hL : i < L.length),
      ∃ p, productoMapGet (productosFetched s d) d[i].producto_id = some p ∧
        L[i].precio_unitario =
          (if isNullOrUndef d[i].precio_unitario then some p.precio_minorista
           else toNumber d[i].precio_unitario) ∧
        L[i].sub_total =
          (if isNullOrUndef d[i].sub_total then
            jround2 (jmul L[i].precio_unitario (toNumber d[i].cantidad))
          else jround2 (toNumber d[i].sub_total)) := by
  rcases crearDetalleVenta_shape s d with ⟨e, heq⟩ | ⟨tot', ds', ms', venta, hp, hw, heq⟩
  · rw [hrun] at heq
    exact absurd (congrArg Prod.snd heq) (by simp)
  rw [hrun] at heq
  simp only [Prod.mk.injEq, Except.ok.injEq] at heq
  obtain ⟨-, hL'⟩ := heq
  rw [hproc] at hp
  simp only [Except.ok.injEq, Prod.mk.injEq] at hp
  obtain ⟨-, hds, -⟩ := hp
  have hLds : L = ds := by rw [hL', hds]
  subst hLds
  obtain ⟨hlen, -, hget⟩ := procesar_ok_get d _ _ _ _ _ _ hproc
  intro i hd hLi
  obtain ⟨p, hp1, hp2⟩ := hget i hd (by rw [hlen]; exact hd)
  refine ⟨p, hp1, ?_, ?_⟩
  · rw [hp2]
    rfl
  · rw [hp2]
    rfl

/-- Witness for C6 at the first line of `d25`: no price supplied, so the
unit price defaults to product 1's list price and the subtotal is
`round2(10 × 2)`. -/
theorem C6_price_and_subtotal_witness :
    crearDetalleVenta s100 d25 = (s100post, Except.ok L25) ∧
    procesar (productosFetched s100 d25) s100.nextMovId (some 0) d25 =
      Except.ok (some 25, L25, M25) ∧
    (0 : ℕ) < d25.length ∧ (0 : ℕ) < L25.length ∧
    (∃ p, productoMapGet (productosFetched s100 d25)
        (d25.get ⟨0, by norm_num [d25]⟩).producto_id = some p ∧
      (L25.get ⟨0, by norm_num [L25]⟩).precio_unitario =
        (if isNullOrUndef (d25.get ⟨0, by norm_num [d25]⟩).precio_unitario then
          some p.precio_minorista
         else toNumber (d25.get ⟨0, by norm_num [d25]⟩).precio_unitario) ∧
      (L25.get ⟨0, by norm_num [L25]⟩).sub_total =
        (if isNullOrUndef (d25.get ⟨0, by norm_num [d25]⟩).sub_total then
          jround2 (jmul (L25.get ⟨0, by norm_num [L25]⟩).precio_unitario
            (toNumber (d25.get ⟨0, by norm_num [d25]⟩).cantidad))
         else jround2 (toNumber (d25.get ⟨0, by norm_num [d25]⟩).sub_total))) :=
  ⟨run_s100, proc_s100, by norm_num [d25], by norm_num [L25],
    C6_price_and_subtotal s100 d25 s100post L25 L25 (some 25) M25 run_s100 proc_s100
      0 (by norm_num [d25]) (by norm_num [L25])⟩

/-- C7: the `total_subtotales` value used in the order-total
reconciliation equals the sum of the subtotals of the returned lines,
rounded to 2 decimals. -/
theorem C7_total_equals_sum (s : Store) (d : List LineInput) (s' : Store)
    (L ds : List DetalleVenta) (tot : JNum) (ms : List Movimiento)
    (hrun : crearDetalleVenta s d = (s', Except.ok L))
    (hproc : procesar (productosFetched s d) s.nextMovId (some 0) d =
      Except.ok (tot, ds, ms)) :
    tot = jround2 (L.foldl (fun a x => jadd a x.sub_total) (some 0)) := by
  rcases crearDetalleVenta_shape s d with ⟨e, heq⟩ | ⟨tot', ds', ms', venta, hp, hw, heq⟩
  · rw [hrun] at heq
    exact absurd (congrArg Prod.snd heq) (by simp)
  rw [hrun] at heq
  simp only [Prod.mk.injEq, Except.ok.injEq] at heq
  obtain ⟨-, hL'⟩ := heq
  rw [hproc] at hp
  simp only [Except.ok.injEq, Prod.mk.injEq] at hp
  obtain ⟨-, hds, -⟩ := hp
  have hLds : L = ds := by rw [hL', hds]
  subst hLds
  exact procesar_tot_spec d _ _ _ _ _ _ (Or.inr ⟨0, by norm_num⟩) hproc

/-- Witness for C7 at `d25`: 25.00 is the rounded sum 20.00 + 5.00. -/
theorem C7_total_equals_sum_witness :
    crearDetalleVenta s100 d25 = (s100post, Except.ok L25) ∧
    procesar (productosFetched s100 d25) s100.nextMovId (some 0) d25 =
      Except.ok (some 25, L25, M25) ∧
    (some 25 : JNum) = jround2 (L25.foldl (fun a x => jadd a x.sub_total) (some 0)) :=
  ⟨run_s100, proc_s100,
    C7_total_equals_sum s100 d25 s100post L25 L25 (some 25) M25 run_s100 proc_s100⟩

/-- A concrete set of token claims used in closed instances. -/
def payload0 : JWTPayload :=
  { id := 1, username := "ana", rol := "admin", roles := some ["admin"] }

/-- Counterexample to C8 as stated: a token that is both expired and
signature-tampered fails with `TOKEN_INVALID`, although the current time
exceeds its encoded expiry — so "fails with TOKEN_EXPIRED exactly when the
current time exceeds the encoded expiry" is false as a biconditional. -/
theorem C8_expired_tampered_counterexample :
    (Token.mk payload0 10 false).exp < 11 ∧
    autenticarToken 11 (some (Token.mk payload0 10 false)) = .err 403 "TOKEN_INVALID" := by
  exact ⟨by norm_num, rfl⟩

/-- C8 (amended): authentication answers 401 `TOKEN_NOT_PROVIDED` with no
token; a structurally intact, correctly signed token answers 403
`TOKEN_EXPIRED` exactly when the current time exceeds the encoded expiry
(never a generic invalid error); any signature or structural mismatch
answers 403 `TOKEN_INVALID` (even if the token is also expired); and a
valid unexpired token yields the decoded claims unchanged — the codec
takes no store argument at all. -/
theorem C8_token_codec_amended (now : ℕ) (t : Token) :
    autenticarToken now none = .err 401 "TOKEN_NOT_PROVIDED" ∧
    (t.sigValid = true → t.exp < now →
      autenticarToken now (some t) = .err 403 "TOKEN_EXPIRED") ∧
    (t.sigValid = false → autenticarToken now (some t) = .err 403 "TOKEN_INVALID") ∧
    (t.sigValid = true → ¬ t.exp < now → autenticarToken now (some t) = .ok t.payload) := by
  refine ⟨rfl, ?_, ?_, ?_⟩
  · intro h1 h2
    simp [autenticarToken, verificarToken, jwtVerify, h1, h2]
  · intro h1
    simp [autenticarToken, verificarToken, jwtVerify, h1]
  · intro h1 h2
    simp [autenticarToken, verificarToken, jwtVerify, h1, h2]

/-- Witness for the amended C8: an intact expired token at time 11 yields
`TOKEN_EXPIRED`, and an absent token yields `TOKEN_NOT_PROVIDED`. -/
theorem C8_token_codec_amended_witness :
    (Token.mk payload0 10 true).sigValid = true ∧
    (Token.mk payload0 10 true).exp < 11 ∧
    autenticarToken 11 (some (Token.mk payload0 10 true)) = .err 403 "TOKEN_EXPIRED" ∧
    autenticarToken 11 none = .err 401 "TOKEN_NOT_PROVIDED" :=
  ⟨rfl, by norm_num,
    (C8_token_codec_amended 11 (Token.mk payload0 10 true)).2.1 rfl (by norm_num),
    (C8_token_codec_amended 11 (Token.mk payload0 10 true)).1⟩

/-- Behavior of `verificarRol` on an authenticated request, parameterized
by where the effective role list came from: the request cache (no store
query) or the store (one query). -/
theorem verificarRol_some_spec (perms : List String) (st : AuthStore) (req : Req)
    (u : AuthUsuario) (rolesU : List String) (queried : Bool)
    (hu : req.usuario = some u)
    (hcase : (u.roles = some rolesU ∧ queried = false) ∨
      (u.roles = none ∧ rolesU = rolesDeUsuario st u.id ∧ queried = true)) :
    verificarRol perms st req =
      (if rolesU.any (fun rol => perms.any (fun rp => rp = rol)) then
        (RolOutcome.next { u with roles := some rolesU }, queried)
      else
        (RolOutcome.err 403 "INSUFFICIENT_PERMISSIONS"
          ("La operación \"" ++ obtenerAccionDeRuta req ++ "\" requiere el rol: "
            ++ formatearRoles perms ++ ".")
          (some { rolesRequeridos := perms
                  usuario := u.username
                  operacion := obtenerAccionDeRuta req }), queried)) := by
  unfold verificarRol
  rw [hu]
  dsimp only
  rcases hcase with ⟨hr, rfl⟩ | ⟨hr, hrq, rfl⟩
  · rw [hr]
  · rw [hr, hrq]

/-- C9: the role guard fails 401 with no authenticated subject; otherwise
it allows the request exactly when the subject's effective role set meets
(any-of) the required set, and on an empty intersection fails 403
`INSUFFICIENT_PERMISSIONS` carrying the required roles, the username and
the operation description. -/
theorem C9_verificar_rol (perms : List String) (st : AuthStore) (req : Req) :
    (req.usuario = none →
      (verificarRol perms st req).1 =
        .err 401 "AUTHENTICATION_REQUIRED"
          "Debes estar autenticado para realizar esta acción." none) ∧
    (∀ u rolesU, req.usuario = some u →
      (u.roles = some rolesU ∨ (u.roles = none ∧ rolesU = rolesDeUsuario st u.id)) →
      (((∃ r, r ∈ rolesU ∧ r ∈ perms) →
        (verificarRol perms st req).1 = .next { u with roles := some rolesU }) ∧
      (¬ (∃ r, r ∈ rolesU ∧ r ∈ perms) →
        (verificarRol perms st req).1 =
          .err 403 "INSUFFICIENT_PERMISSIONS"
            ("La operación \"" ++ obtenerAccionDeRuta req ++ "\" requiere el rol: "
              ++ formatearRoles perms ++ ".")
            (some { rolesRequeridos := perms
                    usuario := u.username
                    operacion := obtenerAccionDeRuta req })))) := by
  constructor
  · intro h
    simp [verificarRol, h]
  · intro u rolesU hu hcase
    have hspec := verificarRol_some_spec perms st req u rolesU
      (match u.roles with
       | some _ => false
       | none => true)
      hu (by rcases hcase with h | ⟨h1, h2⟩
             · exact Or.inl ⟨h, by rw [h]⟩
             · exact Or.inr ⟨h1, h2, by rw [h1]⟩)
    have hiff : (rolesU.any (fun rol => perms.any (fun rp => rp = rol)) = true) ↔
        (∃ r, r ∈ rolesU ∧ r ∈ perms) := by
      simp [List.any_eq_true]
    constructor
    · intro hex
      rw [hspec, if_pos (hiff.mpr hex)]
    · intro hnex
      rw [hspec, if_neg (fun hc => hnex (hiff.mp hc))]

/-- Subject with only the `vendedor` role cached on the request. -/
def uV : AuthUsuario := ⟨2, "bea", "vendedor", some ["vendedor"]⟩

/-- Subject with the `admin` and `vendedor` roles cached on the request. -/
def uA : AuthUsuario := ⟨3, "carla", "admin", some ["admin", "vendedor"]⟩

/-- A GET request outside the `/usuarios` special cases, as `uV`. -/
def reqV : Req := ⟨"GET", "/ventas", some uV⟩

/-- The same request as `uA`. -/
def reqA : Req := ⟨"GET", "/ventas", some uA⟩

/-- An empty role store. -/
def st0 : AuthStore := ⟨[], []⟩

/-- A role store where subject 2 has since been granted `admin`. -/
def stAlt : AuthStore := ⟨[⟨1, "admin"⟩], [⟨2, 1⟩]⟩

/-- Witness for C9: requiring `admin` denies the `vendedor`-only subject
with the full 403 payload and allows the `admin`+`vendedor` subject. -/
theorem C9_verificar_rol_witness :
    reqV.usuario = some uV ∧ uV.roles = some ["vendedor"] ∧
    ¬ (∃ r, r ∈ ["vendedor"] ∧ r ∈ ["admin"]) ∧
    (verificarRol ["admin"] st0 reqV).1 =
      .err 403 "INSUFFICIENT_PERMISSIONS"
        ("La operación \"" ++ obtenerAccionDeRuta reqV ++ "\" requiere el rol: "
          ++ formatearRoles ["admin"] ++ ".")
        (some { rolesRequeridos := ["admin"]
                usuario := uV.username
                operacion := obtenerAccionDeRuta reqV }) ∧
    (∃ r, r ∈ ["admin", "vendedor"] ∧ r ∈ ["admin"]) ∧
    (verificarRol ["admin"] st0 reqA).1 = .next { uA with roles := some ["admin", "vendedor"] } :=
  ⟨rfl, rfl, by decide,
    ((C9_verificar_rol ["admin"] st0 reqV).2 uV ["vendedor"] rfl (Or.inl rfl)).2 (by decide),
    by decide,
    ((C9_verificar_rol ["admin"] st0 reqA).2 uA ["admin", "vendedor"] rfl (Or.inl rfl)).1
      (by decide)⟩

/-- C10: with a roles list already on the subject context — as produced by
login, which embeds the freshly loaded full role list in the token
payload — the guard issues no store query and its outcome is independent
of the role store, so role edits are invisible to such requests. -/
theorem C10_cached_roles_no_query (perms : List String) (st st2 : AuthStore) (req : Req)
    (u : AuthUsuario) (rs : List String) (uid : ℕ) (uname : String)
    (hu : req.usuario = some u) (hr : u.roles = some rs) :
    (verificarRol perms st req).2 = false ∧
    verificarRol perms st req = verificarRol perms st2 req ∧
    (loginTokenPayload st uid uname).roles = some (rolesDeUsuario st uid) := by
  have h1 := verificarRol_some_spec perms st req u rs false hu (Or.inl ⟨hr, rfl⟩)
  have h2 := verificarRol_some_spec perms st2 req u rs false hu (Or.inl ⟨hr, rfl⟩)
  refine ⟨?_, ?_, ?_⟩
  · rw [h1]
    split <;> rfl
  · rw [h1, h2]
  · rfl

/-- Witness for C10: the cached `vendedor` subject is denied `admin`
access identically under the empty store and under a store where an
administrator has since granted them `admin`; no query is issued, and
login embeds the loaded role list in the payload. -/
theorem C10_cached_roles_no_query_witness :
    reqV.usuario = some uV ∧ uV.roles = some ["vendedor"] ∧
    ((verificarRol ["admin"] st0 reqV).2 = false ∧
     verificarRol ["admin"] st0 reqV = verificarRol ["admin"] stAlt reqV ∧
     (loginTokenPayload st0 2 "bea").roles = some (rolesDeUsuario st0 2)) :=
  ⟨rfl, rfl,
    C10_cached_roles_no_query ["admin"] st0 stAlt reqV uV ["vendedor"] 2 "bea" rfl rfl⟩
